import Mathlib

/-!
Verification development for the Google Drive Inventory Manager
(`drive_inventory_app.py`).

The core of the application is
  * the enrichment pipeline `load_data`, which derives
    `Days Since Update`, `Age Category`, `Folder Level` and
    `Parent Folder` for every CSV row, and
  * the suggestion engine `ai_archive_suggestions`, which evaluates four
    archiving rules over the enriched rows.

Both are shallowly embedded below.  Timestamps are modelled as integers
(seconds); `pd.to_datetime(..., errors:coerce)` yields either a parsed
timestamp or `NaT`, modelled as `Option Int` (`none` = `NaT`, covering
both a missing and an unparsable source value).  `.dt.days` floors, so
`Days Since Update` is `Int.fdiv (now - lu) 86400`.  Pandas string
columns are modelled as `String`; `set(...)` in rule 3 is modelled as
`List.eraseDups` (deduplication keeping first occurrences; Python set
iteration order is unspecified, only the cardinality and the cap are
relied upon).  Python `str.lower` and the regexes of rule 3 only meet
ASCII names in this data set, and `Char.toLower` agrees with
`str.lower` there.
-/

/-- Number of occurrences of the separator in a folder path: the
embedding of `df['Folder Path'].str.count('/')`. -/
def countSlashes (s : String) : Nat :=
  (s.data.filter (fun c => c == '/')).length

/-- Embedding of `df['Folder Path'].str.extract(r'(.+)/[^/]+$').fillna('Root')`:
the regex (with `re.search` semantics) captures everything before the last
separator provided the final segment is nonempty and slash free and the
part before the separator is nonempty; otherwise the row gets `Root`. -/
def parentFolder (s : String) : String :=
  match s.data.reverse.dropWhile (fun c => c != '/') with
  | '/' :: p =>
    if (s.data.reverse.takeWhile (fun c => c != '/')).isEmpty || p.isEmpty then "Root"
    else String.mk p.reverse
  | _ => "Root"

/-- Embedding of `categorize_age` from the source: thresholds tried in
order on the (possibly absent) day count. -/
def categorize_age (days : Option Int) : String :=
  match days with
  | none => "Unknown"
  | some d =>
    if d ≤ 30 then "Recent (0-30 days)"
    else if d ≤ 90 then "Moderately Old (1-3 months)"
    else if d ≤ 365 then "Old (3-12 months)"
    else "Very Old (1+ years)"

/-- One token match of the rule-3 regex `(_copy|_v\d+|\(\d+\)|_final|_draft)`
at the head of the character list; returns the remaining characters after
the matched token.  The five alternatives start with distinct two-character
prefixes, so Python's leftmost-alternative order is irrelevant. -/
def matchTok : List Char → Option (List Char)
  | '_' :: 'c' :: 'o' :: 'p' :: 'y' :: rest => some rest
  | '_' :: 'f' :: 'i' :: 'n' :: 'a' :: 'l' :: rest => some rest
  | '_' :: 'd' :: 'r' :: 'a' :: 'f' :: 't' :: rest => some rest
  | '_' :: 'v' :: rest =>
    if (rest.takeWhile Char.isDigit).isEmpty then none
    else some (rest.dropWhile Char.isDigit)
  | '(' :: rest =>
    if (rest.takeWhile Char.isDigit).isEmpty then none
    else
      match rest.dropWhile Char.isDigit with
      | ')' :: rest2 => some rest2
      | _ => none
  | _ => none

/-- Left-to-right scan of `re.sub` with empty replacement: delete every
(leftmost, non-overlapping) token occurrence.  Every successful token
match consumes at least three characters, so a fuel equal to the length
of the input is sufficient for the scan to finish. -/
def stripTokensAux : Nat → List Char → List Char
  | 0, l => l
  | _ + 1, [] => []
  | n + 1, c :: cs =>
    match matchTok (c :: cs) with
    | some rest => stripTokensAux n rest
    | none => c :: stripTokensAux n cs

/-- Embedding of `re.sub(r'(_copy|_v\d+|\(\d+\)|_final|_draft)', '', name)`. -/
def stripTokens (l : List Char) : List Char :=
  stripTokensAux l.length l

/-- The office extensions of the rule-3 regex `\.(pdf|docx?|xlsx?|pptx?)$`
(none is a suffix of another, so the checking order is irrelevant). -/
def extSuffixes : List (List Char) :=
  [".docx".data, ".xlsx".data, ".pptx".data, ".pdf".data, ".doc".data,
   ".xls".data, ".ppt".data]

/-- Embedding of `re.sub(r'\.(pdf|docx?|xlsx?|pptx?)$', '', name_clean)`:
remove the one trailing office extension, when present. -/
def stripExt (l : List Char) : List Char :=
  match extSuffixes.find? (fun e => e.isSuffixOf l) with
  | some e => l.take (l.length - e.length)
  | none => l

/-- The rule-3 name pattern: lower-case the name, delete the suffix
tokens, then strip one trailing office extension (in that order, as in
the source). -/
def namePattern (s : String) : String :=
  String.mk (stripExt (stripTokens (s.data.map Char.toLower)))

/-- A raw CSV row, after `pd.read_csv` and the `errors:coerce` date
parse: `LastUpdated = none` models `NaT` (missing or unparsable
`Last Updated`).  `Type'` carries the `Type` column (the unprimed name
is reserved in Lean). -/
structure RawRow where
  Name : String
  Type' : String
  URL : String
  LastUpdated : Option Int
  LastEditedBy : String
  LastEditorEmail : String
  FolderPath : String
  ContentCount : Int
  deriving DecidableEq

/-- An enriched row: the raw columns plus the four derived columns
`Days Since Update`, `Age Category`, `Folder Level`, `Parent Folder`. -/
structure Row where
  Name : String
  Type' : String
  URL : String
  LastUpdated : Option Int
  LastEditedBy : String
  LastEditorEmail : String
  FolderPath : String
  ContentCount : Int
  DaysSinceUpdate : Option Int
  AgeCategory : String
  FolderLevel : Nat
  ParentFolder : String
  deriving DecidableEq

/-- Enrichment of one row: the per-row content of the column assignments
in `load_data` (`now` is the reference time `datetime.now()`, passed
explicitly as in the §4.1 contract). -/
def enrichRow (now : Int) (r : RawRow) : Row :=
  { Name := r.Name
    Type' := r.Type'
    URL := r.URL
    LastUpdated := r.LastUpdated
    LastEditedBy := r.LastEditedBy
    LastEditorEmail := r.LastEditorEmail
    FolderPath := r.FolderPath
    ContentCount := r.ContentCount
    DaysSinceUpdate := r.LastUpdated.map (fun lu => Int.fdiv (now - lu) 86400)
    AgeCategory := categorize_age (r.LastUpdated.map (fun lu => Int.fdiv (now - lu) 86400))
    FolderLevel := countSlashes r.FolderPath
    ParentFolder := parentFolder r.FolderPath }

/-- Embedding of `load_data` (the branch where a file was uploaded): the
pandas column assignments act row-wise, so the frame transformation is a
map over the rows. -/
def load_data (now : Int) (rows : List RawRow) : List Row :=
  rows.map (enrichRow now)

/-- A suggestion group: the dict appended by `ai_archive_suggestions`. -/
structure Suggestion where
  category : String
  count : Nat
  reason : String
  confidence : String
  items : List String
  deriving DecidableEq

/-- Rule 1 match set: `df[(df['Age Category'] == 'Very Old (1+ years)') & (df['Type'] == 'File')]`. -/
def veryOldFiles (df : List Row) : List Row :=
  df.filter (fun r => r.AgeCategory == "Very Old (1+ years)" && r.Type' == "File")

/-- Rule 2 match set: `df[(df['Type'] == 'Folder') & (df['Content Count'] == 0)]`. -/
def emptyFolders (df : List Row) : List Row :=
  df.filter (fun r => r.Type' == "Folder" && r.ContentCount == 0)

/-- Rule 3 scan domain: `file_df = df[df['Type'] == 'File']`. -/
def fileRecords (df : List Row) : List Row :=
  df.filter (fun r => r.Type' == "File")

/-- Rule 4 match set: folders in an old age bucket with more than ten
children. -/
def oldFolders (df : List Row) : List Row :=
  df.filter (fun r =>
    r.Type' == "Folder" &&
    (r.AgeCategory == "Old (3-12 months)" || r.AgeCategory == "Very Old (1+ years)") &&
    decide (10 < r.ContentCount))

/-- The rule-3 scan: `seen_patterns` maps a name pattern to the
first-seen name; a collision appends the first-seen name and the
colliding name to `duplicate_candidates`. -/
def dupCandidates (seen : List (String × String)) : List Row → List String
  | [] => []
  | r :: rs =>
    match seen.lookup (namePattern r.Name) with
    | some first => first :: r.Name :: dupCandidates seen rs
    | none => dupCandidates ((namePattern r.Name, r.Name) :: seen) rs

/-- The rule 1 group as appended by the source. -/
def vofGroup (df : List Row) : Suggestion :=
  { category := "Very Old Files"
    count := (veryOldFiles df).length
    reason := "Files not accessed in over 1 year"
    confidence := "High"
    items := ((veryOldFiles df).map Row.Name).take 10 }

/-- The rule 2 group as appended by the source. -/
def efGroup (df : List Row) : Suggestion :=
  { category := "Empty Folders"
    count := (emptyFolders df).length
    reason := "Folders containing no files"
    confidence := "High"
    items := (emptyFolders df).map Row.Name }

/-- The rule 3 group as appended by the source: `set(duplicate_candidates)`
is modelled by `eraseDups` (order unspecified in Python; only cardinality
and cap matter downstream). -/
def dupGroup (df : List Row) : Suggestion :=
  { category := "Potential Duplicates"
    count := (dupCandidates [] (fileRecords df)).eraseDups.length
    reason := "Files with similar names that might be duplicates"
    confidence := "Medium"
    items := (dupCandidates [] (fileRecords df)).eraseDups.take 10 }

/-- The rule 4 group as appended by the source. -/
def lofGroup (df : List Row) : Suggestion :=
  { category := "Large Old Folders"
    count := (oldFolders df).length
    reason := "Folders with many files that haven\x27t been updated recently"
    confidence := "Medium"
    items := ((oldFolders df).map Row.Name).take 5 }

/-- Embedding of `ai_archive_suggestions`: the four rules are evaluated
in source order and a rule appends its group exactly when it matched
(for rule 3: when the scan produced collision candidates). -/
def ai_archive_suggestions (df : List Row) : List Suggestion :=
  (if 0 < (veryOldFiles df).length then [vofGroup df] else []) ++
  (if 0 < (emptyFolders df).length then [efGroup df] else []) ++
  (if 0 < (fileRecords df).length then
    if dupCandidates [] (fileRecords df) ≠ [] then [dupGroup df] else []
  else []) ++
  (if 0 < (oldFolders df).length then [lofGroup df] else [])

/-! ## Helper lemmas -/

lemma takeWhile_append_stop {p : Char → Bool} (xs ys : List Char) (y : Char)
    (hxs : ∀ x ∈ xs, p x = true) (hy : p y = false) :
    (xs ++ y :: ys).takeWhile p = xs ∧ (xs ++ y :: ys).dropWhile p = y :: ys := by
  induction xs with
  | nil => simp [List.takeWhile, List.dropWhile, hy]
  | cons a as ih =>
    have ha : p a = true := hxs a (by simp)
    have ih' := ih (fun x hx => hxs x (by simp [hx]))
    simp [List.takeWhile, List.dropWhile, ha, ih'.1, ih'.2]

lemma dupCandidates_nil (seen : List (String × String)) :
    dupCandidates seen [] = [] := rfl

lemma mem_suggestions {df : List Row} {g : Suggestion} :
    g ∈ ai_archive_suggestions df ↔
      (0 < (veryOldFiles df).length ∧ g = vofGroup df) ∨
      (0 < (emptyFolders df).length ∧ g = efGroup df) ∨
      (0 < (fileRecords df).length ∧ dupCandidates [] (fileRecords df) ≠ [] ∧ g = dupGroup df) ∨
      (0 < (oldFolders df).length ∧ g = lofGroup df) := by
  unfold ai_archive_suggestions
  split_ifs <;> simp_all

/-! ## Claims -/

/-- C1: the age bucket of an enriched record is a function of its
`Days Since Update` alone, following the fixed thresholds in order
(`none` → Unknown, `d ≤ 30` → Recent, `30 < d ≤ 90` → Moderately Old,
`90 < d ≤ 365` → Old, `d > 365` → Very Old); the boundaries 30, 90, 365
fall in the lower bucket, 366 is Very Old, and negative day counts
(future timestamps) are Recent. -/
theorem age_bucket_spec :
    (∀ (t : Int) (r : RawRow),
      (enrichRow t r).AgeCategory = categorize_age (enrichRow t r).DaysSinceUpdate) ∧
    categorize_age none = "Unknown" ∧
    (∀ d : Int, d ≤ 30 → categorize_age (some d) = "Recent (0-30 days)") ∧
    (∀ d : Int, 30 < d → d ≤ 90 → categorize_age (some d) = "Moderately Old (1-3 months)") ∧
    (∀ d : Int, 90 < d → d ≤ 365 → categorize_age (some d) = "Old (3-12 months)") ∧
    (∀ d : Int, 365 < d → categorize_age (some d) = "Very Old (1+ years)") ∧
    categorize_age (some 30) = "Recent (0-30 days)" ∧
    categorize_age (some 90) = "Moderately Old (1-3 months)" ∧
    categorize_age (some 365) = "Old (3-12 months)" ∧
    categorize_age (some 366) = "Very Old (1+ years)" ∧
    (∀ d : Int, d < 0 → categorize_age (some d) = "Recent (0-30 days)") := by
  refine ⟨fun t r => rfl, rfl, ?_, ?_, ?_, ?_, by decide, by decide, by decide, by decide, ?_⟩ <;>
    (intro d; intros; simp only [categorize_age]; split_ifs <;> first | rfl | omega)

/-- C1 witness: the threshold clauses of `age_bucket_spec` instantiated
at concrete day counts. -/
theorem age_bucket_spec_witness :
    categorize_age (some 5) = "Recent (0-30 days)" ∧
    categorize_age (some 60) = "Moderately Old (1-3 months)" ∧
    categorize_age (some 200) = "Old (3-12 months)" ∧
    categorize_age (some 1000) = "Very Old (1+ years)" ∧
    categorize_age (some (-7)) = "Recent (0-30 days)" := by
  obtain ⟨-, -, h3, h4, h5, h6, -, -, -, -, h11⟩ := age_bucket_spec
  exact ⟨h3 5 (by decide), h4 60 (by decide) (by decide), h5 200 (by decide) (by decide),
    h6 1000 (by decide), h11 (-7) (by decide)⟩

/-- C4: the enrichment pipeline is a one-to-one mapping over the input
rows: the output has the same length and the row at every index is the
enrichment of the input row at that index (no filtering, no
reordering). -/
theorem enrichment_one_to_one (t : Int) (rows : List RawRow) :
    (load_data t rows).length = rows.length ∧
    ∀ (i : Nat) (r : RawRow), rows.get? i = some r →
      (load_data t rows).get? i = some (enrichRow t r) := by
  refine ⟨by simp [load_data], fun i r hi => ?_⟩
  rw [load_data, List.get?_map, hi]
  rfl

/-- A well-formed sample row: a file last updated 400 days before the
reference time `34560000` (= 400 days in seconds). -/
def sampleRaw : RawRow :=
  { Name := "a.pdf", Type' := "File", URL := "", LastUpdated := some 0,
    LastEditedBy := "", LastEditorEmail := "", FolderPath := "", ContentCount := 0 }

/-- C4 witness: the one-to-one mapping at a concrete one-row batch. -/
theorem enrichment_one_to_one_witness :
    (load_data 34560000 [sampleRaw]).length = [sampleRaw].length ∧
    (load_data 34560000 [sampleRaw]).get? 0 = some (enrichRow 34560000 sampleRaw) :=
  ⟨(enrichment_one_to_one 34560000 [sampleRaw]).1,
    (enrichment_one_to_one 34560000 [sampleRaw]).2 0 sampleRaw rfl⟩

/-- A row whose `Type` is neither `File` nor `Folder`. -/
def invalidRow : RawRow :=
  { Name := "mystery", Type' := "Banana", URL := "", LastUpdated := none,
    LastEditedBy := "", LastEditorEmail := "", FolderPath := "", ContentCount := 0 }

/-- C5 counterexample: a batch containing a record whose `kind` is not
one of the recognized values is not rejected — `load_data` enriches it
like any other row and returns the full batch, so no
`InputValidationError` is ever raised (the source contains no validation
of `Name` or `Type` at all). -/
theorem invalid_kind_enriched_anyway :
    load_data 0 [invalidRow] = [enrichRow 0 invalidRow] ∧
    (load_data 0 [invalidRow]).length = 1 ∧
    (enrichRow 0 invalidRow).Type' = "Banana" := by
  exact ⟨rfl, rfl, rfl⟩

/-- C5 amended: the enrichment pipeline performs no validation of `name`
or `kind`; even a batch containing a record whose `kind` is unrecognized
is enriched in full (every row mapped, none dropped, no error). -/
theorem enrichment_no_kind_validation (t : Int) (rows : List RawRow)
    (h : ∃ r ∈ rows, r.Type' ≠ "File" ∧ r.Type' ≠ "Folder") :
    load_data t rows = rows.map (enrichRow t) ∧
    (load_data t rows).length = rows.length := by
  exact ⟨rfl, by simp [load_data]⟩

/-- C5 amended witness: the no-validation theorem at a concrete batch
holding an unrecognized kind. -/
theorem enrichment_no_kind_validation_witness :
    load_data 0 [invalidRow] = [invalidRow].map (enrichRow 0) ∧
    (load_data 0 [invalidRow]).length = [invalidRow].length :=
  enrichment_no_kind_validation 0 [invalidRow] ⟨invalidRow, by decide⟩

/-- C6: enrichment is deterministic — the derived fields are a pure
function of the reference time and the raw fields they are derived from
(`Last Updated` and `Folder Path`); two records agreeing on those raw
fields receive identical derived fields, so re-running the pipeline on
the same raw input always reproduces the same derived values. -/
theorem derived_fields_deterministic (t : Int) (r1 r2 : RawRow)
    (hlu : r1.LastUpdated = r2.LastUpdated) (hfp : r1.FolderPath = r2.FolderPath) :
    (enrichRow t r1).DaysSinceUpdate = (enrichRow t r2).DaysSinceUpdate ∧
    (enrichRow t r1).AgeCategory = (enrichRow t r2).AgeCategory ∧
    (enrichRow t r1).FolderLevel = (enrichRow t r2).FolderLevel ∧
    (enrichRow t r1).ParentFolder = (enrichRow t r2).ParentFolder := by
  simp [enrichRow, hlu, hfp]

/-- C6 witness: two raw rows differing only in `Name` get identical
derived fields. -/
theorem derived_fields_deterministic_witness :
    (enrichRow 0 sampleRaw).DaysSinceUpdate =
      (enrichRow 0 { sampleRaw with Name := "b.pdf" }).DaysSinceUpdate ∧
    (enrichRow 0 sampleRaw).AgeCategory =
      (enrichRow 0 { sampleRaw with Name := "b.pdf" }).AgeCategory ∧
    (enrichRow 0 sampleRaw).FolderLevel =
      (enrichRow 0 { sampleRaw with Name := "b.pdf" }).FolderLevel ∧
    (enrichRow 0 sampleRaw).ParentFolder =
      (enrichRow 0 { sampleRaw with Name := "b.pdf" }).ParentFolder :=
  derived_fields_deterministic 0 sampleRaw { sampleRaw with Name := "b.pdf" } rfl rfl

/-- A row whose `Last Updated` was unparsable (`NaT` after the coerce). -/
def badDateRaw : RawRow :=
  { Name := "undated.txt", Type' := "File", URL := "", LastUpdated := none,
    LastEditedBy := "", LastEditorEmail := "", FolderPath := "x/y", ContentCount := 0 }

/-- C9: an unparsable `Last Updated` (`NaT` after the coerce) never makes
the pipeline fail: that row gets `Days Since Update = none` and age
bucket `Unknown`, and every row of the batch — that one included — is
still enriched in place. -/
theorem unparsable_timestamp_degrades (t : Int) (rows : List RawRow) (i : Nat) (r : RawRow)
    (hi : rows.get? i = some r) (hlu : r.LastUpdated = none) :
    (load_data t rows).get? i = some (enrichRow t r) ∧
    (enrichRow t r).DaysSinceUpdate = none ∧
    (enrichRow t r).AgeCategory = "Unknown" ∧
    ∀ (j : Nat) (r' : RawRow), rows.get? j = some r' →
      (load_data t rows).get? j = some (enrichRow t r') := by
  refine ⟨?_, by simp [enrichRow, hlu], by simp [enrichRow, hlu, categorize_age], ?_⟩
  · rw [load_data, List.get?_map, hi]; rfl
  · intro j r' hj
    rw [load_data, List.get?_map, hj]; rfl

/-- C9 witness: a two-row batch whose first row has an unparsable date;
the first row degrades to Unknown, the second row is enriched normally. -/
theorem unparsable_timestamp_degrades_witness :
    (load_data 0 [badDateRaw, sampleRaw]).get? 0 = some (enrichRow 0 badDateRaw) ∧
    (enrichRow 0 badDateRaw).DaysSinceUpdate = none ∧
    (enrichRow 0 badDateRaw).AgeCategory = "Unknown" ∧
    (load_data 0 [badDateRaw, sampleRaw]).get? 1 = some (enrichRow 0 sampleRaw) := by
  have h := unparsable_timestamp_degrades 0 [badDateRaw, sampleRaw] 0 badDateRaw rfl rfl
  exact ⟨h.1, h.2.1, h.2.2.1, h.2.2.2 1 sampleRaw rfl⟩

/-- A row whose folder path ends in a separator. -/
def trailingSlashRaw : RawRow :=
  { Name := "odd", Type' := "Folder", URL := "", LastUpdated := none,
    LastEditedBy := "", LastEditorEmail := "", FolderPath := "a/", ContentCount := 0 }

/-- C7 counterexample: the folder path `a/` contains a separator, yet
the code derives `Parent Folder = "Root"` for it (the extraction regex
`(.+)/[^/]+$` needs a nonempty final segment), so parent paths are not
`Root` exactly when the path is empty or separator-free, and the parent
is not always the prefix before the final segment. -/
theorem trailing_separator_parent_root :
    (enrichRow 0 trailingSlashRaw).ParentFolder = "Root" ∧
    (enrichRow 0 trailingSlashRaw).FolderLevel = 1 ∧
    trailingSlashRaw.FolderPath ≠ "" := by
  exact ⟨rfl, rfl, by decide⟩

/-- C7 amended: `Folder Level` is the number of separators in the folder
path; `Parent Folder` is the prefix before the final `/`-delimited
segment whenever that final segment is nonempty and the prefix before
its separator is nonempty, and `Root` otherwise (empty path, no
separator, a trailing separator, or an empty prefix as in `/a`). -/
theorem folder_depth_parent_spec :
    (∀ (t : Int) (r : RawRow),
      (enrichRow t r).FolderLevel = (r.FolderPath.data.filter (fun c => c == '/')).length ∧
      (enrichRow t r).ParentFolder = parentFolder r.FolderPath) ∧
    (∀ p seg : List Char, p ≠ [] → seg ≠ [] → (∀ c ∈ seg, c ≠ '/') →
      parentFolder (String.mk (p ++ '/' :: seg)) = String.mk p) ∧
    (∀ s : String, (∀ c ∈ s.data, c ≠ '/') → parentFolder s = "Root") ∧
    parentFolder "" = "Root" ∧
    (∀ (s : String) (l : List Char), s.data = l ++ ['/'] → parentFolder s = "Root") ∧
    (∀ seg : List Char, (∀ c ∈ seg, c ≠ '/') →
      parentFolder (String.mk ('/' :: seg)) = "Root") := by
  refine ⟨fun t r => ⟨rfl, rfl⟩, ?_, ?_, rfl, ?_, ?_⟩
  · intro p seg hp hseg hfree
    have hdata : (String.mk (p ++ '/' :: seg)).data = p ++ '/' :: seg := rfl
    have hrev : (p ++ '/' :: seg).reverse = seg.reverse ++ '/' :: p.reverse := by
      simp
    have hstop := takeWhile_append_stop (p := fun c => c != '/')
      seg.reverse p.reverse '/'
      (fun x hx => by
        have : x ∈ seg := List.mem_reverse.mp hx
        simp [bne_iff_ne]
        exact hfree x this)
      (by simp)
    rw [parentFolder, hdata, hrev, hstop.2]
    have h1 : (seg.reverse ++ '/' :: p.reverse).takeWhile (fun c => c != '/') = seg.reverse := by
      rw [← hrev, hrev, hstop.1]
    rw [h1]
    have h2 : seg.reverse.isEmpty = false := by
      cases hs : seg.reverse with
      | nil => exact absurd (by simpa using List.reverse_eq_nil_iff.mp hs) hseg
      | cons a as => rfl
    have h3 : p.reverse.isEmpty = false := by
      cases hs : p.reverse with
      | nil => exact absurd (by simpa using List.reverse_eq_nil_iff.mp hs) hp
      | cons a as => rfl
    simp [h2, h3]
  · intro s hfree
    have hall : ∀ c ∈ s.data.reverse, (fun c => c != '/') c = true := by
      intro c hc
      simp [bne_iff_ne]
      exact hfree c (List.mem_reverse.mp hc)
    have hdrop : s.data.reverse.dropWhile (fun c => c != '/') = [] :=
      List.dropWhile_eq_nil_iff.mpr hall
    rw [parentFolder, hdrop]
  · intro s l hsl
    rw [parentFolder, hsl]
    simp [List.dropWhile, List.takeWhile]
  · intro seg hfree
    have hdata : (String.mk ('/' :: seg)).data = '/' :: seg := rfl
    have hrev : ('/' :: seg).reverse = seg.reverse ++ '/' :: [] := by
      simp
    have hstop := takeWhile_append_stop (p := fun c => c != '/')
      seg.reverse [] '/'
      (fun x hx => by
        have : x ∈ seg := List.mem_reverse.mp hx
        simp [bne_iff_ne]
        exact hfree x this)
      (by simp)
    rw [parentFolder, hdata, hrev, hstop.2]
    simp

/-- C7 amended witness: depth and parent at `a/b` (parent `a`), `Root`
for the separator-free path `abc`, and `Root` for the empty-prefix path
`/a`. -/
theorem folder_depth_parent_spec_witness :
    parentFolder (String.mk (['a'] ++ '/' :: ['b'])) = String.mk ['a'] ∧
    parentFolder "abc" = "Root" ∧
    parentFolder (String.mk ('/' :: ['a'])) = "Root" := by
  have h := folder_depth_parent_spec
  exact ⟨h.2.1 ['a'] ['b'] (by decide) (by decide) (by decide),
    h.2.2.1 "abc" (by decide),
    h.2.2.2.2.2 ['a'] (by decide)⟩

/-- C8: the engine returns groups in the fixed rule order (Very Old
Files, Empty Folders, Potential Duplicates, Large Old Folders), a rule
contributing its group exactly when it matched (for rule 3: when the
scan produced collision candidates); the empty input yields the empty
group list and never an error. -/
theorem suggestions_fixed_order (df : List Row) :
    ai_archive_suggestions [] = [] ∧
    (ai_archive_suggestions df).map Suggestion.category =
      (if 0 < (veryOldFiles df).length then ["Very Old Files"] else []) ++
      (if 0 < (emptyFolders df).length then ["Empty Folders"] else []) ++
      (if dupCandidates [] (fileRecords df) ≠ [] then ["Potential Duplicates"] else []) ++
      (if 0 < (oldFolders df).length then ["Large Old Folders"] else []) := by
  refine ⟨rfl, ?_⟩
  have hnil : (fileRecords df).length = 0 → dupCandidates [] (fileRecords df) = [] := by
    intro h
    rw [List.length_eq_zero.mp h, dupCandidates_nil]
  unfold ai_archive_suggestions
  split_ifs <;> simp_all [vofGroup, efGroup, dupGroup, lofGroup]

/-- C3: every emitted group satisfies `len(items) ≤ count`, and per
rule: Very Old Files reports the true match count with the first 10
matches, Empty Folders is uncapped, Potential Duplicates reports the
deduplicated candidate-set size with at most 10 of its elements, Large
Old Folders reports the true match count with the first 5 matches. -/
theorem count_bounds_items (df : List Row) (g : Suggestion)
    (hg : g ∈ ai_archive_suggestions df) :
    g.items.length ≤ g.count ∧
    (g.category = "Very Old Files" →
      g.count = (veryOldFiles df).length ∧
      g.items = ((veryOldFiles df).map Row.Name).take 10) ∧
    (g.category = "Empty Folders" →
      g.count = (emptyFolders df).length ∧
      g.items = (emptyFolders df).map Row.Name) ∧
    (g.category = "Potential Duplicates" →
      g.count = (dupCandidates [] (fileRecords df)).eraseDups.length ∧
      g.items = (dupCandidates [] (fileRecords df)).eraseDups.take 10) ∧
    (g.category = "Large Old Folders" →
      g.count = (oldFolders df).length ∧
      g.items = ((oldFolders df).map Row.Name).take 5) := by
  rcases mem_suggestions.mp hg with ⟨h, rfl⟩ | ⟨h, rfl⟩ | ⟨hf, hd, rfl⟩ | ⟨h, rfl⟩ <;>
    refine ⟨?_, ?_, ?_, ?_, ?_⟩ <;>
    first
      | (intro _; exact ⟨rfl, rfl⟩)
      | (intro hcat; exact absurd hcat (by simp [vofGroup, efGroup, dupGroup, lofGroup]))
      | (simp only [vofGroup, efGroup, dupGroup, lofGroup, List.length_take,
          List.length_map] <;> omega)

/-- A well-formed empty-folder sample row. -/
def emptyFolderRaw : RawRow :=
  { Name := "Reports", Type' := "Folder", URL := "", LastUpdated := some 0,
    LastEditedBy := "", LastEditorEmail := "", FolderPath := "Reports", ContentCount := 0 }

/-- C3 witness: the cap bound for the Very Old Files group of a concrete
one-file batch 400 days old. -/
theorem count_bounds_items_witness :
    (vofGroup (load_data 34560000 [sampleRaw])).items.length ≤
      (vofGroup (load_data 34560000 [sampleRaw])).count :=
  (count_bounds_items (load_data 34560000 [sampleRaw])
    (vofGroup (load_data 34560000 [sampleRaw])) (by decide)).1

/-- C10: every group the engine can emit has confidence High or Medium
(never the declared but unreachable Low) and one of the four fixed
category labels. -/
theorem confidence_category_closed (df : List Row) (g : Suggestion)
    (hg : g ∈ ai_archive_suggestions df) :
    (g.confidence = "High" ∨ g.confidence = "Medium") ∧
    g.confidence ≠ "Low" ∧
    g.category ∈ ["Very Old Files", "Empty Folders", "Potential Duplicates",
      "Large Old Folders"] := by
  rcases mem_suggestions.mp hg with ⟨h, rfl⟩ | ⟨h, rfl⟩ | ⟨hf, hd, rfl⟩ | ⟨h, rfl⟩ <;>
    refine ⟨?_, ?_, ?_⟩ <;> simp [vofGroup, efGroup, dupGroup, lofGroup]

/-- C10 witness: the Empty Folders group of a concrete one-folder batch
has an allowed confidence and category. -/
theorem confidence_category_closed_witness :
    ((efGroup (load_data 0 [emptyFolderRaw])).confidence = "High" ∨
      (efGroup (load_data 0 [emptyFolderRaw])).confidence = "Medium") ∧
    (efGroup (load_data 0 [emptyFolderRaw])).confidence ≠ "Low" ∧
    (efGroup (load_data 0 [emptyFolderRaw])).category ∈
      ["Very Old Files", "Empty Folders", "Potential Duplicates", "Large Old Folders"] :=
  confidence_category_closed (load_data 0 [emptyFolderRaw])
    (efGroup (load_data 0 [emptyFolderRaw])) (by decide)

/-- C2: the Potential Duplicates rule scans only File records in input
order; the scan keeps a pattern → first-seen-name map and, on each
collision, appends the first-seen and the colliding name to the
candidate list; a group is emitted exactly when a collision occurred,
with Medium confidence, `count` the size of the deduplicated candidate
set and `items` that set capped at 10.  The name pattern lower-cases,
deletes every `_copy`/`_v<digits>`/`(<digits>)`/`_final`/`_draft`
occurrence, then strips one trailing office extension, as the concrete
evaluations show. -/
theorem potential_duplicates_rule (df : List Row) :
    (dupCandidates [] (fileRecords df) = [] →
      ∀ g ∈ ai_archive_suggestions df, g.category ≠ "Potential Duplicates") ∧
    (dupCandidates [] (fileRecords df) ≠ [] →
      dupGroup df ∈ ai_archive_suggestions df ∧
      (dupGroup df).confidence = "Medium" ∧
      (dupGroup df).count = (dupCandidates [] (fileRecords df)).eraseDups.length ∧
      (dupGroup df).items = (dupCandidates [] (fileRecords df)).eraseDups.take 10) ∧
    (∀ (seen : List (String × String)) (r : Row) (rs : List Row) (fst : String),
      seen.lookup (namePattern r.Name) = some fst →
      dupCandidates seen (r :: rs) = fst :: r.Name :: dupCandidates seen rs) ∧
    (∀ (seen : List (String × String)) (r : Row) (rs : List Row),
      seen.lookup (namePattern r.Name) = none →
      dupCandidates seen (r :: rs) =
        dupCandidates ((namePattern r.Name, r.Name) :: seen) rs) ∧
    namePattern "plan_final.docx" = "plan" ∧
    namePattern "plan_v2.docx" = "plan" ∧
    namePattern "Report_copy_draft(2).pdf" = "report" := by
  refine ⟨?_, ?_, ?_, ?_, by decide, by decide, by decide⟩
  · intro hnil g hg
    rcases mem_suggestions.mp hg with ⟨h, rfl⟩ | ⟨h, rfl⟩ | ⟨hf, hd, rfl⟩ | ⟨h, rfl⟩
    · simp [vofGroup]
    · simp [efGroup]
    · exact absurd hnil hd
    · simp [lofGroup]
  · intro hd
    have hf : 0 < (fileRecords df).length := by
      cases hfr : fileRecords df with
      | nil => rw [hfr, dupCandidates_nil] at hd; exact absurd rfl hd
      | cons a as => simp [hfr]
    exact ⟨mem_suggestions.mpr (Or.inr (Or.inr (Or.inl ⟨hf, hd, rfl⟩))), rfl, rfl, rfl⟩
  · intro seen r rs fst h
    simp only [dupCandidates, h]
  · intro seen r rs h
    simp only [dupCandidates, h]

/-- The two files of spec Scenario C. -/
def planFinalRaw : RawRow :=
  { Name := "plan_final.docx", Type' := "File", URL := "", LastUpdated := some 0,
    LastEditedBy := "", LastEditorEmail := "", FolderPath := "", ContentCount := 0 }

/-- Second file of spec Scenario C (differs only in name). -/
def planV2Raw : RawRow :=
  { planFinalRaw with Name := "plan_v2.docx" }

/-- C2 witness: Scenario C — `plan_final.docx` and `plan_v2.docx` share
the pattern `plan` and yield a Potential Duplicates group with count 2
holding both names. -/
theorem potential_duplicates_rule_witness :
    dupGroup (load_data 0 [planFinalRaw, planV2Raw]) ∈
      ai_archive_suggestions (load_data 0 [planFinalRaw, planV2Raw]) ∧
    (dupGroup (load_data 0 [planFinalRaw, planV2Raw])).count = 2 ∧
    (dupGroup (load_data 0 [planFinalRaw, planV2Raw])).items =
      ["plan_final.docx", "plan_v2.docx"] := by
  have h := (potential_duplicates_rule (load_data 0 [planFinalRaw, planV2Raw])).2.1 (by decide)
  exact ⟨h.1, by decide, by decide⟩
